import Mathlib

/-!
Shallow embedding of `src/Backend/main.py` (VEO-Prompt-Machine-V3 backend).

The backend exposes two POST handlers, `analyze_pathology` (`/analyze`) and
`generate_narrative` (`/narrative`).  Each reads optional string fields from
the JSON body, routes on `model_type` (default `"gemini"`, anything else goes
to the Claude branch), checks the provider API key, performs one outbound
provider call and normalizes the result to `{"text": ...}` or an
HTTP 500 error whose detail is `str(e)` of the caught exception.

The embedding models the outbound provider calls explicitly: each handler
returns both the HTTP result and the list of outbound calls it performed, and
the providers' behaviour is an explicit environment (`Env`) mapping a call to
either a response or a raised exception message.
-/

/-- Python truthiness of an optional string configuration value:
`None` and `""` are falsy (`if not GEMINI_API_KEY`). -/
def pyTruthy : Option String → Bool
  | none => false
  | some s => !s.isEmpty

/-- Python `str()` / f-string rendering of an optional string: `None` renders
as the four characters `"None"`. -/
def pyStrOfOpt : Option String → String
  | none => "None"
  | some s => s

/-- A Python exception as it matters here: either a fastapi `HTTPException`
(with status code and detail) or a generic exception carrying `str(e)`. -/
inductive PyExn where
  | http (status : Nat) (detail : String)
  | generic (msg : String)
deriving DecidableEq, Repr

/-- `str(e)`: starlette's `HTTPException.__str__` renders
`f"{self.status_code}: {self.detail}"`; a generic exception renders its
message. -/
def strOfExn : PyExn → String
  | PyExn.http status detail => toString status ++ ": " ++ detail
  | PyExn.generic msg => msg

/-- One entry of the `safety_settings` list literal (lines 67-72). -/
structure SafetySetting where
  category : String
  threshold : String
deriving DecidableEq, Repr

/-- The `safety_settings` list literal of `analyze_pathology` (lines 67-72). -/
def safety_settings : List SafetySetting :=
  [ { category := "HARM_CATEGORY_HARASSMENT", threshold := "BLOCK_NONE" },
    { category := "HARM_CATEGORY_HATE_SPEECH", threshold := "BLOCK_NONE" },
    { category := "HARM_CATEGORY_SEXUALLY_EXPLICIT", threshold := "BLOCK_NONE" },
    { category := "HARM_CATEGORY_DANGEROUS_CONTENT", threshold := "BLOCK_NONE" } ]

/-- An outbound `model.generate_content(...)` call to the Gemini API.
Arguments not supplied at a given call site are `none`.  `contents` is the
Python value passed: in the audit handler it is an f-string (hence a string),
in the narrative handler it is the raw `prompt` value, which may be `None`. -/
structure GeminiCall where
  model : String
  contents : Option String
  generation_config : Option (List (String × String))
  safety_settings : Option (List SafetySetting)
  system_instruction : Option String
deriving DecidableEq, Repr

/-- One element of the `messages` list of an Anthropic call. -/
structure ClaudeMessage where
  role : String
  content : Option String
deriving DecidableEq, Repr

/-- An outbound `client.messages.create(...)` call to the Anthropic API.
`system` is `none` when the argument is not passed (narrative handler). -/
structure ClaudeCall where
  model : String
  max_tokens : Nat
  system : Option String
  messages : List ClaudeMessage
deriving DecidableEq, Repr

/-- A Gemini response as the handlers consume it: `response.text` and
`response.prompt_feedback` (modelled as an optional rendered string; `none`
is falsy). -/
structure GeminiResponse where
  text : String
  prompt_feedback : Option String
deriving DecidableEq, Repr

/-- A Claude response as the handlers consume it: `response.content` is a
list of content blocks, of which only `.text` is read. -/
structure ClaudeResponse where
  content : List String
deriving DecidableEq, Repr

/-- Outcome of one outbound provider call: a response, or a raised exception
with message `str(e)`. -/
inductive CallOutcome (α : Type) where
  | ok (resp : α)
  | exn (msg : String)

/-- The behaviour of the two external providers: what each outbound call
returns (or raises).  This is the only non-deterministic part of the system;
the handlers are deterministic functions of the body, the configuration and
this environment. -/
structure Env where
  geminiRespond : GeminiCall → CallOutcome GeminiResponse
  claudeRespond : ClaudeCall → CallOutcome ClaudeResponse

/-- Process configuration read from the environment at startup
(lines 29-30): the two provider API keys, `None` when unset. -/
structure Config where
  GEMINI_API_KEY : Option String
  ANTHROPIC_API_KEY : Option String
deriving DecidableEq, Repr

/-- Record of one outbound network call made by a handler. -/
inductive OutboundCall where
  | gemini (call : GeminiCall)
  | claude (call : ClaudeCall)
deriving DecidableEq, Repr

/-- The HTTP-level result a handler produces: a 200 `{"text": t}` body, or an
error response with status code and detail string. -/
inductive HttpResult where
  | ok (text : String)
  | err (status : Nat) (detail : String)
deriving DecidableEq, Repr

/-- JSON body of a `/analyze` request; each field is absent (`none`) or a
string.  `body.get(k)` yields `None` for an absent field. -/
structure AnalyzeBody where
  model_type : Option String
  system_prompt : Option String
  chat_log : Option String
deriving DecidableEq, Repr

/-- JSON body of a `/narrative` request. -/
structure NarrativeBody where
  model_type : Option String
  prompt : Option String
deriving DecidableEq, Repr

/-- The Gemini call constructed by `analyze_pathology` (lines 65-79):
framed contents, JSON response mime type, the static safety settings, and the
caller's `system_prompt` as system instruction. -/
def auditGeminiCall (body : AnalyzeBody) : GeminiCall :=
  { model := "gemini-3-flash-preview",
    contents := some ("AUDIT TARGET LOG:\n" ++ pyStrOfOpt body.chat_log),
    generation_config := some [("response_mime_type", "application/json")],
    safety_settings := some safety_settings,
    system_instruction := body.system_prompt }

/-- The Claude call constructed by `analyze_pathology` (lines 90-95). -/
def auditClaudeCall (body : AnalyzeBody) : ClaudeCall :=
  { model := "claude-3-5-sonnet-20241022",
    max_tokens := 4096,
    system := body.system_prompt,
    messages := [ { role := "user",
                    content := some ("AUDIT TARGET LOG:\n" ++ pyStrOfOpt body.chat_log) } ] }

/-- The Gemini call constructed by `generate_narrative` (lines 110-111):
`model.generate_content(prompt)` with no other arguments. -/
def narrGeminiCall (body : NarrativeBody) : GeminiCall :=
  { model := "gemini-3-flash-preview",
    contents := body.prompt,
    generation_config := none,
    safety_settings := none,
    system_instruction := none }

/-- The Claude call constructed by `generate_narrative` (lines 116-120):
no `system` argument. -/
def narrClaudeCall (body : NarrativeBody) : ClaudeCall :=
  { model := "claude-3-5-sonnet-20241022",
    max_tokens := 4096,
    system := none,
    messages := [ { role := "user", content := body.prompt } ] }

/-- Gemini branch of the `/analyze` try block after the outbound call
(lines 74-86): empty `response.text` raises an `HTTPException` mentioning
`prompt_feedback` when that is truthy, otherwise a generic empty-response
`HTTPException`; non-empty text is returned. -/
def geminiAuditResult (env : Env) (body : AnalyzeBody) : Except PyExn String :=
  match env.geminiRespond (auditGeminiCall body) with
  | CallOutcome.exn m => Except.error (PyExn.generic m)
  | CallOutcome.ok resp =>
      if resp.text = "" then
        match resp.prompt_feedback with
        | some fb => Except.error (PyExn.http 500 ("Gemini blocked response: " ++ fb))
        | none => Except.error (PyExn.http 500 "Gemini returned empty response")
      else Except.ok resp.text

/-- Claude branch of the `/analyze` try block after the outbound call
(lines 90-96): returns `response.content[0].text` with no emptiness check;
indexing an empty list raises `IndexError("list index out of range")`. -/
def claudeAuditResult (env : Env) (body : AnalyzeBody) : Except PyExn String :=
  match env.claudeRespond (auditClaudeCall body) with
  | CallOutcome.exn m => Except.error (PyExn.generic m)
  | CallOutcome.ok resp =>
      match resp.content.head? with
      | none => Except.error (PyExn.generic "list index out of range")
      | some blk => Except.ok blk

/-- Gemini branch of the `/narrative` try block after the outbound call
(lines 111-112): `response.text` is returned with no emptiness check. -/
def geminiNarrResult (env : Env) (body : NarrativeBody) : Except PyExn String :=
  match env.geminiRespond (narrGeminiCall body) with
  | CallOutcome.exn m => Except.error (PyExn.generic m)
  | CallOutcome.ok resp => Except.ok resp.text

/-- Claude branch of the `/narrative` try block after the outbound call
(lines 116-121). -/
def claudeNarrResult (env : Env) (body : NarrativeBody) : Except PyExn String :=
  match env.claudeRespond (narrClaudeCall body) with
  | CallOutcome.exn m => Except.error (PyExn.generic m)
  | CallOutcome.ok resp =>
      match resp.content.head? with
      | none => Except.error (PyExn.generic "list index out of range")
      | some blk => Except.ok blk

/-- The try block of `analyze_pathology` (lines 61-96), returning the value
or exception together with the outbound calls performed.  Routing: the
`model_type` field defaults to `"gemini"` (line 57); the `if` compares it to
`"gemini"` and everything else takes the Claude branch.  Each branch first
checks its API key (raising before any outbound call when it is falsy), then
performs exactly one outbound call. -/
def analyzeTry (cfg : Config) (env : Env) (body : AnalyzeBody) :
    Except PyExn String × List OutboundCall :=
  if body.model_type.getD "gemini" = "gemini" then
    if pyTruthy cfg.GEMINI_API_KEY = false then
      (Except.error (PyExn.http 500 "Gemini key missing"), [])
    else
      (geminiAuditResult env body, [OutboundCall.gemini (auditGeminiCall body)])
  else
    if pyTruthy cfg.ANTHROPIC_API_KEY = false then
      (Except.error (PyExn.http 500 "Claude key missing"), [])
    else
      (claudeAuditResult env body, [OutboundCall.claude (auditClaudeCall body)])

/-- `analyze_pathology` (lines 54-98): the try block wrapped by
`except Exception as e: raise HTTPException(status_code=500, detail=str(e))`,
which also catches the `HTTPException`s raised inside the try block. -/
def analyze_pathology (cfg : Config) (env : Env) (body : AnalyzeBody) :
    HttpResult × List OutboundCall :=
  match analyzeTry cfg env body with
  | (Except.ok t, tr) => (HttpResult.ok t, tr)
  | (Except.error e, tr) => (HttpResult.err 500 (strOfExn e), tr)

/-- The try block of `generate_narrative` (lines 106-121). -/
def narrativeTry (cfg : Config) (env : Env) (body : NarrativeBody) :
    Except PyExn String × List OutboundCall :=
  if body.model_type.getD "gemini" = "gemini" then
    if pyTruthy cfg.GEMINI_API_KEY = false then
      (Except.error (PyExn.http 500 "Gemini key missing"), [])
    else
      (geminiNarrResult env body, [OutboundCall.gemini (narrGeminiCall body)])
  else
    if pyTruthy cfg.ANTHROPIC_API_KEY = false then
      (Except.error (PyExn.http 500 "Claude key missing"), [])
    else
      (claudeNarrResult env body, [OutboundCall.claude (narrClaudeCall body)])

/-- `generate_narrative` (lines 100-123). -/
def generate_narrative (cfg : Config) (env : Env) (body : NarrativeBody) :
    HttpResult × List OutboundCall :=
  match narrativeTry cfg env body with
  | (Except.ok t, tr) => (HttpResult.ok t, tr)
  | (Except.error e, tr) => (HttpResult.err 500 (strOfExn e), tr)

/-- The payload an outbound call carries: the Gemini `contents`, or the
content of the first Claude message. -/
def outPayload : OutboundCall → Option String
  | OutboundCall.gemini g => g.contents
  | OutboundCall.claude c => c.messages.head?.bind (fun m => m.content)

/-- The system instruction an outbound call carries. -/
def outSystem : OutboundCall → Option String
  | OutboundCall.gemini g => g.system_instruction
  | OutboundCall.claude c => c.system

/-- The safety settings an outbound call carries; an Anthropic call has no
safety-settings surface at all. -/
def outSafety : OutboundCall → Option (List SafetySetting)
  | OutboundCall.gemini g => g.safety_settings
  | OutboundCall.claude _ => none

/-- The structured-output generation config an outbound call carries. -/
def outGenConfig : OutboundCall → Option (List (String × String))
  | OutboundCall.gemini g => g.generation_config
  | OutboundCall.claude _ => none

/-- Decidable substring test on the underlying character lists. -/
def subAt (pat : List Char) : List Char → Bool
  | [] => pat.isEmpty
  | c :: t => pat.isPrefixOf (c :: t) || subAt pat t

/-- `pat` occurs as a contiguous substring of `s`. -/
def strHasSub (s pat : String) : Bool := subAt pat.data s.data

/-- Test environment: both providers answer successfully with fixed text. -/
def envOk : Env :=
  { geminiRespond := fun _ => CallOutcome.ok { text := "gemini-text", prompt_feedback := none },
    claudeRespond := fun _ => CallOutcome.ok { content := ["claude-text"] } }

/-- Test environment: Gemini answers with empty text and a feedback object;
Claude answers with a single empty content block. -/
def envEmpty : Env :=
  { geminiRespond := fun _ => CallOutcome.ok { text := "", prompt_feedback := some "SAFETY" },
    claudeRespond := fun _ => CallOutcome.ok { content := [""] } }

/-- Test environment: Gemini answers with empty text and no feedback. -/
def envEmptyNoFb : Env :=
  { geminiRespond := fun _ => CallOutcome.ok { text := "", prompt_feedback := none },
    claudeRespond := fun _ => CallOutcome.ok { content := [""] } }

/-- Test environment: both providers raise. -/
def envBoom : Env :=
  { geminiRespond := fun _ => CallOutcome.exn "connection reset",
    claudeRespond := fun _ => CallOutcome.exn "connection reset" }

/-- Configuration with both API keys set. -/
def cfgBoth : Config := { GEMINI_API_KEY := some "gk", ANTHROPIC_API_KEY := some "ak" }

/-- Configuration with neither API key set. -/
def cfgNone : Config := { GEMINI_API_KEY := none, ANTHROPIC_API_KEY := none }

/-- The trace of `analyze_pathology` is that of its try block. -/
theorem analyze_snd (cfg : Config) (env : Env) (body : AnalyzeBody) :
    (analyze_pathology cfg env body).2 = (analyzeTry cfg env body).2 := by
  unfold analyze_pathology
  rcases h : analyzeTry cfg env body with ⟨r, tr⟩
  cases r <;> simp

/-- The trace of `generate_narrative` is that of its try block. -/
theorem narrative_snd (cfg : Config) (env : Env) (body : NarrativeBody) :
    (generate_narrative cfg env body).2 = (narrativeTry cfg env body).2 := by
  unfold generate_narrative
  rcases h : narrativeTry cfg env body with ⟨r, tr⟩
  cases r <;> simp

/-- Trace characterization for `/analyze`: at most one outbound call, to the
routed provider, and none when its key is falsy. -/
theorem analyzeTry_trace (cfg : Config) (env : Env) (body : AnalyzeBody) :
    (analyzeTry cfg env body).2 =
      if body.model_type.getD "gemini" = "gemini" then
        (if pyTruthy cfg.GEMINI_API_KEY = false then []
         else [OutboundCall.gemini (auditGeminiCall body)])
      else
        (if pyTruthy cfg.ANTHROPIC_API_KEY = false then []
         else [OutboundCall.claude (auditClaudeCall body)]) := by
  unfold analyzeTry
  split <;> split <;> simp_all

/-- Trace characterization for `/narrative`. -/
theorem narrativeTry_trace (cfg : Config) (env : Env) (body : NarrativeBody) :
    (narrativeTry cfg env body).2 =
      if body.model_type.getD "gemini" = "gemini" then
        (if pyTruthy cfg.GEMINI_API_KEY = false then []
         else [OutboundCall.gemini (narrGeminiCall body)])
      else
        (if pyTruthy cfg.ANTHROPIC_API_KEY = false then []
         else [OutboundCall.claude (narrClaudeCall body)]) := by
  unfold narrativeTry
  split <;> split <;> simp_all

/-- Concrete `/analyze` body with all fields present. -/
def bodyA : AnalyzeBody :=
  { model_type := none, system_prompt := some "You are an auditor.", chat_log := some "User: hi" }

/-- Concrete `/analyze` body with an unknown `model_type`. -/
def bodyAX : AnalyzeBody :=
  { model_type := some "mystery", system_prompt := some "You are an auditor.", chat_log := some "User: hi" }

/-- Concrete `/narrative` body routed to Claude. -/
def bodyNX : NarrativeBody := { model_type := some "claude", prompt := some "Write a haiku" }

/-- Concrete `/narrative` body routed to Gemini. -/
def bodyNG : NarrativeBody := { model_type := some "gemini", prompt := some "Write a haiku" }

/-- C1: every outbound audit call, to either provider, carries exactly the
fixed framing label `"AUDIT TARGET LOG:\n"` followed by the raw chat log,
with no other transformation. -/
theorem audit_payload_framed (cfg : Config) (env : Env) (body : AnalyzeBody)
    (s : String) (hs : body.chat_log = some s) :
    ∀ c ∈ (analyze_pathology cfg env body).2,
      outPayload c = some ("AUDIT TARGET LOG:\n" ++ s) := by
  intro c hc
  rw [analyze_snd, analyzeTry_trace] at hc
  split at hc <;> split at hc <;>
    simp_all [outPayload, auditGeminiCall, auditClaudeCall, pyStrOfOpt]

/-- C1 witness: at a concrete request the sole outbound call carries the
framed log. -/
theorem audit_payload_framed_witness :
    bodyA.chat_log = some "User: hi" ∧
    outPayload (OutboundCall.gemini (auditGeminiCall bodyA)) =
      some ("AUDIT TARGET LOG:\n" ++ "User: hi") :=
  ⟨rfl, audit_payload_framed cfgBoth envOk bodyA "User: hi" rfl
    (OutboundCall.gemini (auditGeminiCall bodyA)) (by decide)⟩

/-- C2: a present `model_type` different from `"gemini"` is routed to the
Claude branch — the request behaves exactly as if it had asked for Claude,
is never rejected, and any outbound call it makes goes to Claude. -/
theorem unknown_kind_routes_claude (cfg : Config) (env : Env)
    (abody : AnalyzeBody) (nbody : NarrativeBody) (m m' : String)
    (ha : abody.model_type = some m) (hm : m ≠ "gemini")
    (hn : nbody.model_type = some m') (hm' : m' ≠ "gemini") :
    (analyze_pathology cfg env abody =
       analyze_pathology cfg env { abody with model_type := some "claude" }) ∧
    (generate_narrative cfg env nbody =
       generate_narrative cfg env { nbody with model_type := some "claude" }) ∧
    (∀ c ∈ (analyze_pathology cfg env abody).2, ∃ cc, c = OutboundCall.claude cc) ∧
    (∀ c ∈ (generate_narrative cfg env nbody).2, ∃ cc, c = OutboundCall.claude cc) := by
  refine ⟨?_, ?_, ?_, ?_⟩
  · unfold analyze_pathology analyzeTry
    simp [ha, hm, claudeAuditResult, auditClaudeCall]
  · unfold generate_narrative narrativeTry
    simp [hn, hm', claudeNarrResult, narrClaudeCall]
  · intro c hc
    rw [analyze_snd, analyzeTry_trace] at hc
    simp [ha, hm] at hc
    exact ⟨_, hc.2⟩
  · intro c hc
    rw [narrative_snd, narrativeTry_trace] at hc
    simp [hn, hm'] at hc
    exact ⟨_, hc.2⟩

/-- C2 witness: a concrete unknown `model_type` behaves as a Claude request. -/
theorem unknown_kind_routes_claude_witness :
    bodyAX.model_type = some "mystery" ∧
    analyze_pathology cfgBoth envOk bodyAX =
      analyze_pathology cfgBoth envOk { bodyAX with model_type := some "claude" } :=
  ⟨rfl, (unknown_kind_routes_claude cfgBoth envOk bodyAX bodyNX "mystery" "claude"
      rfl (by decide) rfl (by decide)).1⟩

/-- C3: an absent `model_type` is routed to the Gemini branch — the request
behaves exactly as if it had asked for Gemini. -/
theorem absent_kind_routes_gemini (cfg : Config) (env : Env)
    (abody : AnalyzeBody) (nbody : NarrativeBody)
    (ha : abody.model_type = none) (hn : nbody.model_type = none) :
    (analyze_pathology cfg env abody =
       analyze_pathology cfg env { abody with model_type := some "gemini" }) ∧
    (generate_narrative cfg env nbody =
       generate_narrative cfg env { nbody with model_type := some "gemini" }) ∧
    (∀ c ∈ (analyze_pathology cfg env abody).2, ∃ g, c = OutboundCall.gemini g) ∧
    (∀ c ∈ (generate_narrative cfg env nbody).2, ∃ g, c = OutboundCall.gemini g) := by
  refine ⟨?_, ?_, ?_, ?_⟩
  · unfold analyze_pathology analyzeTry
    simp [ha, geminiAuditResult, auditGeminiCall]
  · unfold generate_narrative narrativeTry
    simp [hn, geminiNarrResult, narrGeminiCall]
  · intro c hc
    rw [analyze_snd, analyzeTry_trace] at hc
    simp [ha] at hc
    exact ⟨_, hc.2⟩
  · intro c hc
    rw [narrative_snd, narrativeTry_trace] at hc
    simp [hn] at hc
    exact ⟨_, hc.2⟩

/-- C3 witness: a concrete request with no `model_type` behaves as a Gemini
request. -/
theorem absent_kind_routes_gemini_witness :
    bodyA.model_type = none ∧
    analyze_pathology cfgBoth envOk bodyA =
      analyze_pathology cfgBoth envOk { bodyA with model_type := some "gemini" } :=
  ⟨rfl, (absent_kind_routes_gemini cfgBoth envOk bodyA
      { model_type := none, prompt := some "Write a haiku" } rfl rfl).1⟩

/-- C4 counterexample: on three of the four operation/provider paths an
empty provider text is returned as a successful result rather than failing:
a Gemini narrative response with empty text (line 112, unchecked), a Claude
audit response whose first content block is empty (line 96, unchecked), and
a Claude narrative response whose first content block is empty (line 121,
unchecked) all yield a 200 with `text` empty. -/
theorem empty_text_success_cex :
    generate_narrative cfgBoth envEmptyNoFb bodyNG =
      (HttpResult.ok "", [OutboundCall.gemini (narrGeminiCall bodyNG)]) ∧
    analyze_pathology cfgBoth envEmpty bodyAX =
      (HttpResult.ok "", [OutboundCall.claude (auditClaudeCall bodyAX)]) ∧
    generate_narrative cfgBoth envEmpty bodyNX =
      (HttpResult.ok "", [OutboundCall.claude (narrClaudeCall bodyNX)]) := by
  refine ⟨rfl, rfl, rfl⟩

/-- C4 amended: only the Gemini audit path checks for empty text — there, an
empty `response.text` fails the request with the upstream block-reason
feedback included in the detail when present; the Gemini narrative operation
and both Claude operations return the empty text as a successful result. -/
theorem empty_text_check_gemini_audit_only (cfg : Config) (env : Env)
    (abody : AnalyzeBody) (nbody : NarrativeBody)
    (gresp : GeminiResponse) (cresp : ClaudeResponse) :
    (abody.model_type.getD "gemini" = "gemini" → pyTruthy cfg.GEMINI_API_KEY = true →
       env.geminiRespond (auditGeminiCall abody) = CallOutcome.ok gresp → gresp.text = "" →
       (analyze_pathology cfg env abody).1 =
         HttpResult.err 500
           (strOfExn (PyExn.http 500
             (match gresp.prompt_feedback with
              | some fb => "Gemini blocked response: " ++ fb
              | none => "Gemini returned empty response")))) ∧
    (nbody.model_type.getD "gemini" = "gemini" → pyTruthy cfg.GEMINI_API_KEY = true →
       env.geminiRespond (narrGeminiCall nbody) = CallOutcome.ok gresp → gresp.text = "" →
       (generate_narrative cfg env nbody).1 = HttpResult.ok "") ∧
    (abody.model_type.getD "gemini" ≠ "gemini" → pyTruthy cfg.ANTHROPIC_API_KEY = true →
       env.claudeRespond (auditClaudeCall abody) = CallOutcome.ok cresp →
       cresp.content.head? = some "" →
       (analyze_pathology cfg env abody).1 = HttpResult.ok "") ∧
    (nbody.model_type.getD "gemini" ≠ "gemini" → pyTruthy cfg.ANTHROPIC_API_KEY = true →
       env.claudeRespond (narrClaudeCall nbody) = CallOutcome.ok cresp →
       cresp.content.head? = some "" →
       (generate_narrative cfg env nbody).1 = HttpResult.ok "") := by
  refine ⟨?_, ?_, ?_, ?_⟩
  · intro h hk he ht
    cases hfb : gresp.prompt_feedback <;>
      simp [analyze_pathology, analyzeTry, geminiAuditResult, h, hk, he, ht, hfb]
  · intro h hk he ht
    simp [generate_narrative, narrativeTry, geminiNarrResult, h, hk, he, ht]
  · intro h hk he hh
    simp [analyze_pathology, analyzeTry, claudeAuditResult, h, hk, he, hh]
  · intro h hk he hh
    simp [generate_narrative, narrativeTry, claudeNarrResult, h, hk, he, hh]

/-- C4 amended witness: at concrete requests, a blocked-and-empty Gemini
audit response fails with the feedback in the detail, while an empty Gemini
narrative response and an empty Claude audit response both succeed with
empty text. -/
theorem empty_text_check_gemini_audit_only_witness :
    pyTruthy cfgBoth.GEMINI_API_KEY = true ∧
    (analyze_pathology cfgBoth envEmpty bodyA).1 =
      HttpResult.err 500
        (strOfExn (PyExn.http 500 ("Gemini blocked response: " ++ "SAFETY"))) ∧
    (generate_narrative cfgBoth envEmpty bodyNG).1 = HttpResult.ok "" ∧
    (analyze_pathology cfgBoth envEmpty bodyAX).1 = HttpResult.ok "" :=
  ⟨rfl,
    (empty_text_check_gemini_audit_only cfgBoth envEmpty bodyA bodyNG
      { text := "", prompt_feedback := some "SAFETY" } { content := [""] }).1
      rfl rfl rfl rfl,
    (empty_text_check_gemini_audit_only cfgBoth envEmpty bodyA bodyNG
      { text := "", prompt_feedback := some "SAFETY" } { content := [""] }).2.1
      rfl rfl rfl rfl,
    (empty_text_check_gemini_audit_only cfgBoth envEmpty bodyAX bodyNG
      { text := "", prompt_feedback := none } { content := [""] }).2.2.1
      (by decide) rfl rfl rfl⟩

/-- C5: when the API key of the provider the request routes to is absent, the
handler fails with the configuration error, no outbound call is made (empty
trace), and the detail contains both the word `missing` and the provider's
name. -/
theorem missing_key_config_error (cfg : Config) (env : Env)
    (abody : AnalyzeBody) (nbody : NarrativeBody) :
    (abody.model_type.getD "gemini" = "gemini" → cfg.GEMINI_API_KEY = none →
       analyze_pathology cfg env abody = (HttpResult.err 500 "500: Gemini key missing", [])) ∧
    (abody.model_type.getD "gemini" ≠ "gemini" → cfg.ANTHROPIC_API_KEY = none →
       analyze_pathology cfg env abody = (HttpResult.err 500 "500: Claude key missing", [])) ∧
    (nbody.model_type.getD "gemini" = "gemini" → cfg.GEMINI_API_KEY = none →
       generate_narrative cfg env nbody = (HttpResult.err 500 "500: Gemini key missing", [])) ∧
    (nbody.model_type.getD "gemini" ≠ "gemini" → cfg.ANTHROPIC_API_KEY = none →
       generate_narrative cfg env nbody = (HttpResult.err 500 "500: Claude key missing", [])) ∧
    strHasSub "500: Gemini key missing" "missing" = true ∧
    strHasSub "500: Gemini key missing" "Gemini" = true ∧
    strHasSub "500: Claude key missing" "missing" = true ∧
    strHasSub "500: Claude key missing" "Claude" = true := by
  refine ⟨?_, ?_, ?_, ?_, by decide, by decide, by decide, by decide⟩
  · intro h hk
    unfold analyze_pathology analyzeTry
    rw [if_pos h, hk]
    rfl
  · intro h hk
    unfold analyze_pathology analyzeTry
    rw [if_neg h, hk]
    rfl
  · intro h hk
    unfold generate_narrative narrativeTry
    rw [if_pos h, hk]
    rfl
  · intro h hk
    unfold generate_narrative narrativeTry
    rw [if_neg h, hk]
    rfl

/-- C5 witness: the spec scenario — a non-Gemini audit request with no
Anthropic key fails before any outbound call with the Claude message. -/
theorem missing_key_config_error_witness :
    bodyAX.model_type.getD "gemini" ≠ "gemini" ∧ cfgNone.ANTHROPIC_API_KEY = none ∧
    analyze_pathology cfgNone envOk bodyAX = (HttpResult.err 500 "500: Claude key missing", []) :=
  ⟨by decide, rfl,
    (missing_key_config_error cfgNone envOk bodyAX bodyNG).2.1 (by decide) rfl⟩

/-- C6 counterexample: a request with an empty payload and a `model_type`
naming no known provider is not rejected — it is routed to Claude, the
outbound network call is performed and the request succeeds. -/
theorem invalid_request_not_rejected_cex :
    analyze_pathology cfgBoth envOk
        { model_type := some "mystery", system_prompt := none, chat_log := some "" } =
      (HttpResult.ok "claude-text",
        [OutboundCall.claude
          { model := "claude-3-5-sonnet-20241022", max_tokens := 4096, system := none,
            messages := [ { role := "user", content := some "AUDIT TARGET LOG:\n" } ] }]) ∧
    (analyze_pathology cfgBoth envOk
        { model_type := some "mystery", system_prompt := none, chat_log := some "" }).2 ≠ [] := by
  constructor
  · rfl
  · decide

/-- C6 amended: the handlers enforce no payload validation — a request whose
payload is empty or absent and whose `model_type` names no known provider is
routed to the secondary (Claude) provider, and the outbound call is still
performed whenever the secondary key is configured. -/
theorem no_validation_default_secondary (cfg : Config) (env : Env)
    (abody : AnalyzeBody) (nbody : NarrativeBody) (m m' : String)
    (ha : abody.model_type = some m) (hm : m ≠ "gemini")
    (hn : nbody.model_type = some m') (hm' : m' ≠ "gemini")
    (hkey : pyTruthy cfg.ANTHROPIC_API_KEY = true) :
    (analyze_pathology cfg env abody).2 = [OutboundCall.claude (auditClaudeCall abody)] ∧
    (generate_narrative cfg env nbody).2 = [OutboundCall.claude (narrClaudeCall nbody)] := by
  constructor
  · rw [analyze_snd, analyzeTry_trace]
    simp [ha, hm, hkey]
  · rw [narrative_snd, narrativeTry_trace]
    simp [hn, hm', hkey]

/-- C6 amended witness: empty payload, unknown `model_type`, key present —
the outbound Claude call is performed. -/
theorem no_validation_default_secondary_witness :
    (analyze_pathology cfgBoth envOk
        { model_type := some "mystery", system_prompt := none, chat_log := some "" }).2 =
      [OutboundCall.claude (auditClaudeCall
        { model_type := some "mystery", system_prompt := none, chat_log := some "" })] :=
  (no_validation_default_secondary cfgBoth envOk
    { model_type := some "mystery", system_prompt := none, chat_log := some "" }
    bodyNX "mystery" "claude" rfl (by decide) rfl (by decide) rfl).1

/-- C7: when the outbound provider call raises, the handler reports exactly
one failure whose detail is the original exception message verbatim, after
exactly one outbound call (no retry, nothing swallowed) — for both handlers
and both providers. -/
theorem provider_exception_forwarded (cfg : Config) (env : Env)
    (abody : AnalyzeBody) (nbody : NarrativeBody) (m : String) :
    (abody.model_type.getD "gemini" = "gemini" → pyTruthy cfg.GEMINI_API_KEY = true →
       env.geminiRespond (auditGeminiCall abody) = CallOutcome.exn m →
       analyze_pathology cfg env abody =
         (HttpResult.err 500 m, [OutboundCall.gemini (auditGeminiCall abody)])) ∧
    (abody.model_type.getD "gemini" ≠ "gemini" → pyTruthy cfg.ANTHROPIC_API_KEY = true →
       env.claudeRespond (auditClaudeCall abody) = CallOutcome.exn m →
       analyze_pathology cfg env abody =
         (HttpResult.err 500 m, [OutboundCall.claude (auditClaudeCall abody)])) ∧
    (nbody.model_type.getD "gemini" = "gemini" → pyTruthy cfg.GEMINI_API_KEY = true →
       env.geminiRespond (narrGeminiCall nbody) = CallOutcome.exn m →
       generate_narrative cfg env nbody =
         (HttpResult.err 500 m, [OutboundCall.gemini (narrGeminiCall nbody)])) ∧
    (nbody.model_type.getD "gemini" ≠ "gemini" → pyTruthy cfg.ANTHROPIC_API_KEY = true →
       env.claudeRespond (narrClaudeCall nbody) = CallOutcome.exn m →
       generate_narrative cfg env nbody =
         (HttpResult.err 500 m, [OutboundCall.claude (narrClaudeCall nbody)])) := by
  refine ⟨?_, ?_, ?_, ?_⟩
  · intro h hk he
    simp [analyze_pathology, analyzeTry, geminiAuditResult, h, hk, he, strOfExn]
  · intro h hk he
    simp [analyze_pathology, analyzeTry, claudeAuditResult, h, hk, he, strOfExn]
  · intro h hk he
    simp [generate_narrative, narrativeTry, geminiNarrResult, h, hk, he, strOfExn]
  · intro h hk he
    simp [generate_narrative, narrativeTry, claudeNarrResult, h, hk, he, strOfExn]

/-- C7 witness: a concrete raising provider — the message is forwarded
verbatim after exactly one outbound call. -/
theorem provider_exception_forwarded_witness :
    envBoom.geminiRespond (auditGeminiCall bodyA) = CallOutcome.exn "connection reset" ∧
    analyze_pathology cfgBoth envBoom bodyA =
      (HttpResult.err 500 "connection reset", [OutboundCall.gemini (auditGeminiCall bodyA)]) :=
  ⟨rfl, (provider_exception_forwarded cfgBoth envBoom bodyA bodyNG "connection reset").1
    rfl rfl rfl⟩

/-- C8: every outbound narrative call, to either provider, carries the raw
prompt value unmodified, with no generation config (structured-output hint),
no safety settings and no system instruction. -/
theorem narrative_payload_verbatim (cfg : Config) (env : Env) (body : NarrativeBody) :
    ∀ c ∈ (generate_narrative cfg env body).2,
      outPayload c = body.prompt ∧ outGenConfig c = none ∧
      outSafety c = none ∧ outSystem c = none := by
  intro c hc
  rw [narrative_snd, narrativeTry_trace] at hc
  split at hc <;> split at hc <;>
    simp_all [outPayload, outGenConfig, outSafety, outSystem, narrGeminiCall, narrClaudeCall]

/-- C8 witness: the concrete Gemini narrative call carries the bare prompt. -/
theorem narrative_payload_verbatim_witness :
    outPayload (OutboundCall.gemini (narrGeminiCall bodyNG)) = bodyNG.prompt ∧
    outGenConfig (OutboundCall.gemini (narrGeminiCall bodyNG)) = none ∧
    outSafety (OutboundCall.gemini (narrGeminiCall bodyNG)) = none ∧
    outSystem (OutboundCall.gemini (narrGeminiCall bodyNG)) = none :=
  narrative_payload_verbatim cfgBoth envOk bodyNG
    (OutboundCall.gemini (narrGeminiCall bodyNG)) (by decide)

/-- C9: the safety policy is the fixed four-entry table, each category mapped
to `BLOCK_NONE`; every Gemini audit call carries exactly that table
(independent of request and configuration), while Claude audit calls and all
narrative calls carry no safety override. -/
theorem safety_policy_static (cfg : Config) (env : Env)
    (abody : AnalyzeBody) (nbody : NarrativeBody) :
    safety_settings.length = 4 ∧
    (∀ s ∈ safety_settings, s.threshold = "BLOCK_NONE") ∧
    (∀ c ∈ (analyze_pathology cfg env abody).2,
       outSafety c = match c with
         | OutboundCall.gemini _ => some safety_settings
         | OutboundCall.claude _ => none) ∧
    (∀ c ∈ (generate_narrative cfg env nbody).2, outSafety c = none) := by
  refine ⟨rfl, by decide, ?_, ?_⟩
  · intro c hc
    rw [analyze_snd, analyzeTry_trace] at hc
    split at hc <;> split at hc <;>
      simp_all [outSafety, auditGeminiCall, auditClaudeCall]
  · intro c hc
    rw [narrative_snd, narrativeTry_trace] at hc
    split at hc <;> split at hc <;>
      simp_all [outSafety, narrGeminiCall, narrClaudeCall]

/-- C9 witness: the concrete Gemini audit call carries the static table. -/
theorem safety_policy_static_witness :
    outSafety (OutboundCall.gemini (auditGeminiCall bodyA)) = some safety_settings :=
  (safety_policy_static cfgBoth envOk bodyA bodyNG).2.2.1
    (OutboundCall.gemini (auditGeminiCall bodyA)) (by decide)

/-- Concrete `/analyze` body with every field absent. -/
def bodyAEmpty : AnalyzeBody := { model_type := none, system_prompt := none, chat_log := none }

/-- C10: an absent `chat_log` is not rejected — the outbound payload is the
framing label followed by the literal `"None"` (Python f-string rendering of
`None`); an absent `system_prompt` is forwarded as a null system
instruction; and with the routed key configured, the outbound call is still
performed. -/
theorem absent_chat_log_forwarded (cfg : Config) (env : Env) (body : AnalyzeBody)
    (hlog : body.chat_log = none) :
    (∀ c ∈ (analyze_pathology cfg env body).2,
       outPayload c = some ("AUDIT TARGET LOG:\n" ++ "None")) ∧
    (body.system_prompt = none →
       ∀ c ∈ (analyze_pathology cfg env body).2, outSystem c = none) ∧
    (body.model_type = none → pyTruthy cfg.GEMINI_API_KEY = true →
       (analyze_pathology cfg env body).2 = [OutboundCall.gemini (auditGeminiCall body)]) := by
  refine ⟨?_, ?_, ?_⟩
  · intro c hc
    rw [analyze_snd, analyzeTry_trace] at hc
    split at hc <;> split at hc <;>
      simp_all [outPayload, auditGeminiCall, auditClaudeCall, pyStrOfOpt]
  · intro hsys c hc
    rw [analyze_snd, analyzeTry_trace] at hc
    split at hc <;> split at hc <;>
      simp_all [outSystem, auditGeminiCall, auditClaudeCall]
  · intro hmt hk
    rw [analyze_snd, analyzeTry_trace]
    simp [hmt, hk]

/-- C10 witness: the all-absent body yields the `"None"`-rendered framed
payload with a null system instruction. -/
theorem absent_chat_log_forwarded_witness :
    bodyAEmpty.chat_log = none ∧
    outPayload (OutboundCall.gemini (auditGeminiCall bodyAEmpty)) =
      some ("AUDIT TARGET LOG:\n" ++ "None") ∧
    outSystem (OutboundCall.gemini (auditGeminiCall bodyAEmpty)) = none :=
  ⟨rfl,
    (absent_chat_log_forwarded cfgBoth envOk bodyAEmpty rfl).1
      (OutboundCall.gemini (auditGeminiCall bodyAEmpty)) (by decide),
    (absent_chat_log_forwarded cfgBoth envOk bodyAEmpty rfl).2.1 rfl
      (OutboundCall.gemini (auditGeminiCall bodyAEmpty)) (by decide)⟩
